import Mathlib

/-
Verification development for the Junkcoin chain-parameter registry
(`chaincfg/junkcoinparams.go`).  The Go source is shallowly embedded:
byte strings become `List Nat` (each element a byte value), `big.Int`
and `time.Duration` become `Int`, and the `wire`/`chainhash` structures
appearing in the parameter literals are carried over field by field.
Block hashing is the real double SHA-256 of the serialized 80-byte
header, exactly as `wire.BlockHeader.BlockHash` computes it.
-/

namespace Junkd

/-- A `chainhash.Hash`: 32 bytes in internal (little-endian display) order. -/
abbrev Hash : Type := List Nat

/-- Value of one lowercase hexadecimal digit character. -/
def hexDigitVal (c : Char) : Nat :=
  if c = '0' then 0 else if c = '1' then 1 else if c = '2' then 2
  else if c = '3' then 3 else if c = '4' then 4 else if c = '5' then 5
  else if c = '6' then 6 else if c = '7' then 7 else if c = '8' then 8
  else if c = '9' then 9 else if c = 'a' then 10 else if c = 'b' then 11
  else if c = 'c' then 12 else if c = 'd' then 13 else if c = 'e' then 14
  else if c = 'f' then 15 else 0

/-- Decode a hexadecimal string into its byte sequence, two digits per byte. -/
def hexToBytes (s : String) : List Nat :=
  go s.toList
where
  go : List Char → List Nat
    | c1 :: c2 :: rest => (16 * hexDigitVal c1 + hexDigitVal c2) :: go rest
    | _ => []

/-- Embeds `chainhash.NewHashFromStr`: parse the big-endian display string and
reverse the bytes into the internal order, as the `newHashFromStr` helper used
by the checkpoint table does. -/
def newHashFromStr (s : String) : Hash := (hexToBytes s).reverse

/-- Embeds the source's `mustParseHash`: identical to `newHashFromStr` on the
valid hardcoded inputs it is applied to. -/
def mustParseHash (s : String) : Hash := (hexToBytes s).reverse

/- ## SHA-256, byte-level, as used by `chainhash.DoubleHashH` -/

/-- Reduce to a 32-bit word. -/
def w32 (x : Nat) : Nat := x % 4294967296

/-- 32-bit rotate right. -/
def rotr (n x : Nat) : Nat := ((x >>> n) ||| (x <<< (32 - n))) % 4294967296

def shaCh (x y z : Nat) : Nat := (x &&& y) ^^^ ((x ^^^ 4294967295) &&& z)

def shaMaj (x y z : Nat) : Nat := (x &&& y) ^^^ (x &&& z) ^^^ (y &&& z)

def bigSigma0 (x : Nat) : Nat := rotr 2 x ^^^ rotr 13 x ^^^ rotr 22 x

def bigSigma1 (x : Nat) : Nat := rotr 6 x ^^^ rotr 11 x ^^^ rotr 25 x

def smallSigma0 (x : Nat) : Nat := rotr 7 x ^^^ rotr 18 x ^^^ (x >>> 3)

def smallSigma1 (x : Nat) : Nat := rotr 17 x ^^^ rotr 19 x ^^^ (x >>> 10)

/-- Group bytes into big-endian 32-bit words. -/
def bytesToWords : List Nat → List Nat
  | b0 :: b1 :: b2 :: b3 :: rest =>
      (b0 <<< 24 ||| b1 <<< 16 ||| b2 <<< 8 ||| b3) :: bytesToWords rest
  | _ => []

/-- The 64 SHA-256 round constants of FIPS 180-4, given as one hex string of
big-endian words. -/
def shaK : List Nat := bytesToWords (hexToBytes (String.join
  ["428a2f9871374491b5c0fbcfe9b5dba53956c25b59f111f1923f82a4ab1c5ed5",
   "d807aa9812835b01243185be550c7dc372be5d7480deb1fe9bdc06a7c19bf174",
   "e49b69c1efbe47860fc19dc6240ca1cc2de92c6f4a7484aa5cb0a9dc76f988da",
   "983e5152a831c66db00327c8bf597fc7c6e00bf3d5a7914706ca635114292967",
   "27b70a852e1b21384d2c6dfc53380d13650a7354766a0abb81c2c92e92722c85",
   "a2bfe8a1a81a664bc24b8b70c76c51a3d192e819d6990624f40e3585106aa070",
   "19a4c1161e376c082748774c34b0bcb5391c0cb34ed8aa4a5b9cca4f682e6ff3",
   "748f82ee78a5636f84c878148cc7020890befffaa4506cebbef9a3f7c67178f2"]))

/-- The eight initial SHA-256 hash state words of FIPS 180-4, as one hex
string of big-endian words. -/
def shaH0 : List Nat := bytesToWords (hexToBytes
  "6a09e667bb67ae853c6ef372a54ff53a510e527f9b05688c1f83d9ab5be0cd19")

/-- Append the SHA-256 length padding to a byte message. -/
def shaPad (msg : List Nat) : List Nat :=
  let len := msg.length
  let k := (64 - ((len + 9) % 64)) % 64
  let bitLen := 8 * len
  msg ++ [0x80] ++ List.replicate k 0 ++
    [(bitLen >>> 56) % 256, (bitLen >>> 48) % 256, (bitLen >>> 40) % 256,
     (bitLen >>> 32) % 256, (bitLen >>> 24) % 256, (bitLen >>> 16) % 256,
     (bitLen >>> 8) % 256, bitLen % 256]

/-- Extend a 16-word block by a further n message-schedule words. -/
def extendSchedule : Nat → List Nat → List Nat
  | 0, ws => ws
  | n + 1, ws =>
      let L := ws.length
      let nw := w32 (smallSigma1 (ws.getD (L - 2) 0) + ws.getD (L - 7) 0 +
                     smallSigma0 (ws.getD (L - 15) 0) + ws.getD (L - 16) 0)
      extendSchedule n (ws ++ [nw])

/-- One SHA-256 compression round on the eight-word working state. -/
def shaRound (st : List Nat) (kw : Nat × Nat) : List Nat :=
  match st with
  | [a, b, c, d, e, f, g, h] =>
      let t1 := w32 (h + bigSigma1 e + shaCh e f g + kw.1 + kw.2)
      let t2 := w32 (bigSigma0 a + shaMaj a b c)
      [w32 (t1 + t2), a, b, c, w32 (d + t1), e, f, g]
  | st => st

/-- Process one 512-bit block, updating the eight-word chaining state. -/
def shaBlock (st : List Nat) (blk : List Nat) : List Nat :=
  let ws := extendSchedule 48 blk
  let st2 := (ws.zip shaK).foldl shaRound st
  (st.zip st2).map (fun p => w32 (p.1 + p.2))

/-- Fold the compression function over successive 16-word blocks. -/
def shaProcess (st : List Nat) : List Nat → List Nat
  | w0 :: w1 :: w2 :: w3 :: w4 :: w5 :: w6 :: w7 ::
    w8 :: w9 :: w10 :: w11 :: w12 :: w13 :: w14 :: w15 :: rest =>
      shaProcess (shaBlock st [w0, w1, w2, w3, w4, w5, w6, w7,
                               w8, w9, w10, w11, w12, w13, w14, w15]) rest
  | _ => st

/-- Serialize the eight 32-bit state words to big-endian digest bytes. -/
def wordsToBytes : List Nat → List Nat
  | [] => []
  | w :: rest => (w >>> 24) % 256 :: (w >>> 16) % 256 :: (w >>> 8) % 256 ::
      w % 256 :: wordsToBytes rest

/-- SHA-256 of a byte message. -/
def sha256 (msg : List Nat) : List Nat :=
  wordsToBytes (shaProcess shaH0 (bytesToWords (shaPad msg)))

/- ## Wire structures referenced by the parameter literals -/

/-- A `wire.OutPoint`. -/
structure OutPoint where
  Hash : Hash
  Index : Nat
deriving DecidableEq

/-- A `wire.TxIn`. -/
structure TxIn where
  PreviousOutPoint : OutPoint
  SignatureScript : List Nat
  Sequence : Nat
deriving DecidableEq

/-- A `wire.TxOut`. -/
structure TxOut where
  Value : Int
  PkScript : List Nat
deriving DecidableEq

/-- A `wire.MsgTx`, restricted to the fields the genesis literal sets. -/
structure MsgTx where
  Version : Int
  TxIns : List TxIn
  TxOuts : List TxOut
  LockTime : Nat
deriving DecidableEq

/-- A `wire.BlockHeader`; `Timestamp` holds the Unix seconds of the Go
`time.Time` value, which is all the wire serialization uses. -/
structure BlockHeader where
  Version : Int
  PrevBlock : Hash
  MerkleRoot : Hash
  Timestamp : Nat
  Bits : Nat
  Nonce : Nat
deriving DecidableEq

/-- A `wire.MsgBlock`. -/
structure MsgBlock where
  Header : BlockHeader
  Transactions : List MsgTx
deriving DecidableEq

/-- Serialize a 32-bit value in little-endian byte order. -/
def le32 (x : Nat) : List Nat :=
  [x % 256, (x >>> 8) % 256, (x >>> 16) % 256, (x >>> 24) % 256]

/-- Wire serialization of an 80-byte block header: version, previous block
hash, merkle root, Unix timestamp, compact bits and nonce, all little-endian,
as `wire.writeBlockHeader` emits them. -/
def serializeBlockHeader (h : BlockHeader) : List Nat :=
  le32 h.Version.toNat ++ h.PrevBlock ++ h.MerkleRoot ++
    le32 h.Timestamp ++ le32 h.Bits ++ le32 h.Nonce

/-- Embeds `wire.MsgBlock.BlockHash`: double SHA-256 of the serialized
header. -/
def blockHash (b : MsgBlock) : Hash :=
  sha256 (sha256 (serializeBlockHeader b.Header))

/- ## The chaincfg data model used by the two literals -/

/-- A `chaincfg.DNSSeed`. -/
structure DNSSeed where
  Host : String
  HasFiltering : Bool
deriving DecidableEq

/-- A `chaincfg.Checkpoint`: a hardcoded (height, hash) anchor. -/
structure Checkpoint where
  Height : Int
  Hash : Hash
deriving DecidableEq

/-- `time.Minute` in nanoseconds, the unit of Go `time.Duration`. -/
def timeMinute : Int := 60000000000

/-- `time.Hour` in nanoseconds. -/
def timeHour : Int := 3600000000000

/-- The `chaincfg.Params` record, restricted to the fields the two Junkcoin
literals set.  `big.Int` fields are `Int`, durations are nanosecond `Int`
values, and byte-array magics are byte lists. -/
structure Params where
  Name : String
  Net : Nat
  DefaultPort : String
  DNSSeeds : List DNSSeed
  GenesisBlock : MsgBlock
  GenesisHash : Hash
  PowLimit : Int
  PowLimitBits : Nat
  BIP0034Height : Nat
  BIP0065Height : Nat
  BIP0066Height : Nat
  CoinbaseMaturity : Nat
  SubsidyReductionInterval : Nat
  TargetTimespan : Int
  TargetTimePerBlock : Int
  RetargetAdjustmentFactor : Int
  ReduceMinDifficulty : Bool
  MinDiffReductionTime : Int
  GenerateSupported : Bool
  Checkpoints : List Checkpoint
  RuleChangeActivationThreshold : Nat
  MinerConfirmationWindow : Nat
  RelayNonStdTxs : Bool
  Bech32HRPSegwit : String
  PubKeyHashAddrID : Nat
  ScriptHashAddrID : Nat
  PrivateKeyID : Nat
  WitnessPubKeyHashAddrID : Nat
  WitnessScriptHashAddrID : Nat
  HDPrivateKeyID : List Nat
  HDPublicKeyID : List Nat
  HDCoinType : Nat
deriving DecidableEq

/-- The `bigOne` constant of the surrounding chaincfg package. -/
def bigOne : Int := 1

/-- junkcoinMainPowLimit: the highest proof of work value a Junkcoin block
can have for the main network, computed as in the source as
`2^224 - 1`. -/
def junkcoinMainPowLimit : Int := (bigOne <<< 224) - bigOne

/-- junkcoinTestNetPowLimit: the highest proof of work value a Junkcoin block
can have for the test network, `2^224 - 1`. -/
def junkcoinTestNetPowLimit : Int := (bigOne <<< 224) - bigOne

/-- junkcoinGenesisMerkleRoot: hash of the first transaction in the mainnet
genesis block. -/
def junkcoinGenesisMerkleRoot : Hash :=
  mustParseHash "4a5e1e4baab89f3a32518a88c31bc87f618f76673e2cc77ab2127b7afdeda33b"

/-- junkcoinTestNetGenesisMerkleRoot: hash of the first transaction in the
testnet genesis block. -/
def junkcoinTestNetGenesisMerkleRoot : Hash :=
  mustParseHash "4a5e1e4baab89f3a32518a88c31bc87f618f76673e2cc77ab2127b7afdeda33b"

/-- genesisCoinbaseTx: the coinbase transaction shared by the genesis blocks
of the main and test networks, byte for byte as in the source. -/
def genesisCoinbaseTx : MsgTx :=
  { Version := 1
    TxIns := [
      { PreviousOutPoint := { Hash := List.replicate 32 0, Index := 0xffffffff }
        SignatureScript := [
          0x04, 0xff, 0xff, 0x00, 0x1d, 0x01, 0x04, 0x45,
          0x54, 0x68, 0x65, 0x20, 0x54, 0x69, 0x6d, 0x65,
          0x73, 0x20, 0x30, 0x33, 0x2f, 0x4a, 0x61, 0x6e,
          0x2f, 0x32, 0x30, 0x30, 0x39, 0x20, 0x43, 0x68,
          0x61, 0x6e, 0x63, 0x65, 0x6c, 0x6c, 0x6f, 0x72,
          0x20, 0x6f, 0x6e, 0x20, 0x62, 0x72, 0x69, 0x6e,
          0x6b, 0x20, 0x6f, 0x66, 0x20, 0x73, 0x65, 0x63,
          0x6f, 0x6e, 0x64, 0x20, 0x62, 0x61, 0x69, 0x6c,
          0x6f, 0x75, 0x74, 0x20, 0x66, 0x6f, 0x72, 0x20,
          0x62, 0x61, 0x6e, 0x6b, 0x73]
        Sequence := 0xffffffff }]
    TxOuts := [
      { Value := 0x12a05f200
        PkScript := [
          0x41, 0x04, 0x67, 0x8a, 0xfd, 0xb0, 0xfe, 0x55,
          0x48, 0x27, 0x19, 0x67, 0xf1, 0xa6, 0x71, 0x30,
          0xb7, 0x10, 0x5c, 0xd6, 0xa8, 0x28, 0xe0, 0x39,
          0x09, 0xa6, 0x79, 0x62, 0xe0, 0xea, 0x1f, 0x61,
          0xde, 0xb6, 0x49, 0xf6, 0xbc, 0x3f, 0x4c, 0xef,
          0x38, 0xc4, 0xf3, 0x55, 0x04, 0xe5, 0x1e, 0xc1,
          0x12, 0xde, 0x5c, 0x38, 0x4d, 0xf7, 0xba, 0x0b,
          0x8d, 0x57, 0x8a, 0x4c, 0x70, 0x2b, 0x6b, 0xf1,
          0x1d, 0x5f, 0xac] }]
    LockTime := 0 }

/-- junkcoinGenesisBlock: the mainnet genesis block literal; timestamp and
nonce carry the source's placeholder values. -/
def junkcoinGenesisBlock : MsgBlock :=
  { Header := {
      Version := 1
      PrevBlock := List.replicate 32 0
      MerkleRoot := junkcoinGenesisMerkleRoot
      Timestamp := 1231006505
      Bits := 0x1d00ffff
      Nonce := 2083236893 }
    Transactions := [genesisCoinbaseTx] }

/-- junkcoinTestNetGenesisBlock: the testnet genesis block literal. -/
def junkcoinTestNetGenesisBlock : MsgBlock :=
  { Header := {
      Version := 1
      PrevBlock := List.replicate 32 0
      MerkleRoot := junkcoinTestNetGenesisMerkleRoot
      Timestamp := 1296688602
      Bits := 0x1d00ffff
      Nonce := 414098458 }
    Transactions := [genesisCoinbaseTx] }

/-- junkcoinGenesisHash, computed at package initialization from the genesis
block exactly as the source does. -/
def junkcoinGenesisHash : Hash := blockHash junkcoinGenesisBlock

/-- junkcoinTestNetGenesisHash, computed from the testnet genesis block. -/
def junkcoinTestNetGenesisHash : Hash := blockHash junkcoinTestNetGenesisBlock

/-- JunkcoinMainNetParams: the Junkcoin main network parameter literal. -/
def JunkcoinMainNetParams : Params :=
  { Name := "junkcoin-mainnet"
    Net := 0x6a756e6b
    DefaultPort := "9771"
    DNSSeeds := [
      { Host := "mainnet.junk-coin.com", HasFiltering := true },
      { Host := "junk-seed.s3na.xyz", HasFiltering := true },
      { Host := "jkc-seed.junkiewally.xyz", HasFiltering := true }]
    GenesisBlock := junkcoinGenesisBlock
    GenesisHash := junkcoinGenesisHash
    PowLimit := junkcoinMainPowLimit
    PowLimitBits := 0x1e0ffff0
    BIP0034Height := 0
    BIP0065Height := 0
    BIP0066Height := 0
    CoinbaseMaturity := 70
    SubsidyReductionInterval := 518400
    TargetTimespan := timeHour * 24
    TargetTimePerBlock := timeMinute * 1
    RetargetAdjustmentFactor := 4
    ReduceMinDifficulty := false
    MinDiffReductionTime := 0
    GenerateSupported := false
    Checkpoints := [
      { Height := 0, Hash := newHashFromStr "a2effa738145e377e08a61d76179c21703e13e48910b30a2a87f0dfe794b64c6" },
      { Height := 1, Hash := newHashFromStr "ca55073a54775a1ef78294f53f38a3e02d0654d7417f3cbbe4d28d17d50e07d0" },
      { Height := 53, Hash := newHashFromStr "b623a39a5a0534990a59916d5803fa2bd6a6d52d8e594546936a42a2cc9b0441" },
      { Height := 117, Hash := newHashFromStr "6cab49bd69fcce2bb48793cc064bb49e75f068e7029b5173db83654fbcb5953d" },
      { Height := 200, Hash := newHashFromStr "45257b0f2ee6d5c55ac16a76817d7151b776d6452ae6f21426eaa42345b831f8" },
      { Height := 6452, Hash := newHashFromStr "506562c2172d9f10e86d2b467ed3bb7b9eba40148d18d1e660c1ff692604f3fc" },
      { Height := 10978, Hash := newHashFromStr "1c9f7f7a4702f8225df430b259ac58c387de99439be8a8789841a1c011ead7fc" },
      { Height := 17954, Hash := newHashFromStr "6036051659e92a17cb7488040e05a94483b7a7f88b184156c136d51ff0390a7d" },
      { Height := 23978, Hash := newHashFromStr "7924154aa896363ec9be3ca5f939602f72cf4a5396e6e1cd9139335dd1819487" },
      { Height := 33212, Hash := newHashFromStr "448040ac454da8654d9c58ad79386aa1a88fd113be0fcc5ca39ecd3eae8c8618" },
      { Height := 45527, Hash := newHashFromStr "f2420d964001d4d2c8bc0d9283f3f684d4d91a509a50985888458a68e08e1c82" },
      { Height := 57484, Hash := newHashFromStr "c3e95c6fb35f4b39006c89538415b4f50a253a3ac1cad0e583fb287f6bd91be1" },
      { Height := 69240, Hash := newHashFromStr "c34f5d113fe92f3206ef8855caf51cd6252286e3381b253bbc1237211198c22b" },
      { Height := 73892, Hash := newHashFromStr "d05129c2d9f3e99565bf84fbceabbc61728e4d644173e194823b639f7c406b04" },
      { Height := 168312, Hash := newHashFromStr "deea2bcecb1146ae9cd74d67b29b4d0161e9bb63beb9022ca10f3625dda6c0e6" }]
    RuleChangeActivationThreshold := 9576
    MinerConfirmationWindow := 10080
    RelayNonStdTxs := false
    Bech32HRPSegwit := "jc"
    PubKeyHashAddrID := 0x10
    ScriptHashAddrID := 0x05
    PrivateKeyID := 0x90
    WitnessPubKeyHashAddrID := 0x06
    WitnessScriptHashAddrID := 0x0A
    HDPrivateKeyID := [0x04, 0x88, 0xad, 0xe4]
    HDPublicKeyID := [0x04, 0x88, 0xb2, 0x1e]
    HDCoinType := 2013 }

/-- JunkcoinTestNetParams: the Junkcoin test network parameter literal. -/
def JunkcoinTestNetParams : Params :=
  { Name := "junkcoin-testnet"
    Net := 0x6a756e6b + 1
    DefaultPort := "19771"
    DNSSeeds := [
      { Host := "testnet.junk-coin.com", HasFiltering := true },
      { Host := "junk-testnet.s3na.xyz", HasFiltering := true }]
    GenesisBlock := junkcoinTestNetGenesisBlock
    GenesisHash := junkcoinTestNetGenesisHash
    PowLimit := junkcoinTestNetPowLimit
    PowLimitBits := 0x1e0ffff0
    BIP0034Height := 0
    BIP0065Height := 0
    BIP0066Height := 0
    CoinbaseMaturity := 30
    SubsidyReductionInterval := 518400
    TargetTimespan := timeHour * 4
    TargetTimePerBlock := timeMinute * 1
    RetargetAdjustmentFactor := 4
    ReduceMinDifficulty := true
    MinDiffReductionTime := timeMinute * 2
    GenerateSupported := true
    Checkpoints := [
      { Height := 0, Hash := newHashFromStr "a2effa738145e377e08a61d76179c21703e13e48910b30a2a87f0dfe794b64c6" }]
    RuleChangeActivationThreshold := 1512
    MinerConfirmationWindow := 2016
    RelayNonStdTxs := true
    Bech32HRPSegwit := "tj"
    PubKeyHashAddrID := 0x6f
    ScriptHashAddrID := 0xc4
    PrivateKeyID := 0xef
    WitnessPubKeyHashAddrID := 0x03
    WitnessScriptHashAddrID := 0x28
    HDPrivateKeyID := [0x04, 0x35, 0x83, 0x94]
    HDPublicKeyID := [0x04, 0x35, 0x87, 0xcf]
    HDCoinType := 11337 }

/- ## Compact difficulty decoding -/

/-- Modelled from the spec: the repository stores only `PowLimitBits`; the
decoder lives outside `src/`.  The spec describes the standard 4-byte
compact exponent+mantissa rule: exponent is the top byte, the mantissa is
the low 23 bits, a set bit 23 marks a negative value, and the target is
`mantissa * 256^(exponent-3)` (a right shift when the exponent is at
most 3). -/
def compactToBig (bits : Nat) : Int :=
  let mantissa : Nat := bits &&& 0x007fffff
  let isNegative : Bool := bits &&& 0x00800000 ≠ 0
  let exponent : Nat := bits >>> 24
  let magnitude : Nat :=
    if exponent ≤ 3 then mantissa >>> (8 * (3 - exponent))
    else mantissa <<< (8 * (exponent - 3))
  if isNegative then -(magnitude : Int) else (magnitude : Int)

deriving instance DecidableEq for Except

/- ## CheckpointPolicy -/

/-- The checkpoint validation error of the spec's taxonomy. -/
inductive CheckpointError where
  | CheckpointMismatch
deriving DecidableEq

/-- Modelled from the spec: the repository only stores the checkpoint
tables; `CheckpointPolicy.verify` itself lives outside `src/`.  If a
checkpoint exists at the height, the supplied hash must equal it exactly;
otherwise the check passes. -/
def checkpointVerify (p : Params) (height : Int) (h : Hash) :
    Except CheckpointError Unit :=
  match p.Checkpoints.find? (fun c => c.Height = height) with
  | some c => if c.Hash = h then Except.ok () else
      Except.error CheckpointError.CheckpointMismatch
  | none => Except.ok ()

/- ## Registry -/

/-- The registration error of the spec's taxonomy. -/
inductive RegistryError where
  | DuplicateNetwork
deriving DecidableEq

/-- Modelled from the spec: the `Register` function of the surrounding
chaincfg package lives outside `src/`.  Registration fails with
`DuplicateNetwork` when the network magic or the name is already present,
and otherwise appends the set; the registered list is the registry state. -/
def registerNet (r : List Params) (p : Params) :
    Except RegistryError (List Params) :=
  if r.any (fun q => q.Net = p.Net ∨ q.Name = p.Name) then
    Except.error RegistryError.DuplicateNetwork
  else Except.ok (r ++ [p])

/-- Modelled from the spec: lookup of a registered parameter set by its
network magic. -/
def lookupByMagic (r : List Params) (magic : Nat) : Option Params :=
  r.find? (fun q => q.Net = magic)

/-- Modelled from the spec: lookup of a registered parameter set by name. -/
def lookupByName (r : List Params) (name : String) : Option Params :=
  r.find? (fun q => q.Name = name)

/-- The registry contents after the source's `init` has registered the
main and then the test network. -/
def registeredNets : List Params := [JunkcoinMainNetParams, JunkcoinTestNetParams]

/-- The registration sequence the source's `init` performs, starting from
the empty registry. -/
def initRegistration : Except RegistryError (List Params) :=
  (registerNet [] JunkcoinMainNetParams).bind
    (fun r => registerNet r JunkcoinTestNetParams)

/- ## DifficultyPolicy -/

/-- Modelled from the spec: the retarget computation lives outside `src/`.
Number of blocks per retarget window. -/
def blocksPerRetarget (p : Params) : Int :=
  p.TargetTimespan / p.TargetTimePerBlock

/-- Modelled from the spec: the observed timespan is clamped to the interval
from `TargetTimespan / RetargetAdjustmentFactor` to
`TargetTimespan * RetargetAdjustmentFactor` before it is used. -/
def clampTimespan (p : Params) (actual : Int) : Int :=
  max (p.TargetTimespan / p.RetargetAdjustmentFactor)
    (min (p.TargetTimespan * p.RetargetAdjustmentFactor) actual)

/-- Modelled from the spec: on a retarget boundary the new target is
`old_target * clamped_timespan / target_timespan`, clamped to the proof of
work limit. -/
def retargetNewTarget (p : Params) (oldTarget : Int) (actualTimespan : Int) : Int :=
  min p.PowLimit (oldTarget * clampTimespan p actualTimespan / p.TargetTimespan)

/- ## Claim theorems -/

set_option maxRecDepth 100000

/-- C1: the claim states that `PowLimitBits = 0x1e0ffff0` decodes to a value
at most `PowLimit = 2^224 - 1` on both networks.  It does not: the compact
value decodes to `0x0ffff0 * 256^27 = 1048560 * 2^216`, which exceeds
`2^224 - 1` by a factor of about `2^12`, on the main and the test network
alike. -/
theorem c1_pow_limit_bits_exceed_pow_limit :
    compactToBig JunkcoinMainNetParams.PowLimitBits = 1048560 * 2 ^ 216 ∧
    JunkcoinMainNetParams.PowLimit < compactToBig JunkcoinMainNetParams.PowLimitBits ∧
    JunkcoinTestNetParams.PowLimit < compactToBig JunkcoinTestNetParams.PowLimitBits := by
  decide

/-- C2: the claim states that checkpoint verification at height 0 with the
hash of the stored mainnet genesis block succeeds.  It does not: the stored
genesis block hashes to
`000000000019d6689c085ae165831e934ff763ae46a2a6c172b3f1b60a8ce26f`, which
differs from the checkpoint entry at height 0, so verification returns
`CheckpointMismatch`. -/
theorem c2_genesis_hash_fails_checkpoint_zero :
    junkcoinGenesisHash =
      newHashFromStr "000000000019d6689c085ae165831e934ff763ae46a2a6c172b3f1b60a8ce26f" ∧
    junkcoinGenesisHash ≠
      newHashFromStr "a2effa738145e377e08a61d76179c21703e13e48910b30a2a87f0dfe794b64c6" ∧
    checkpointVerify JunkcoinMainNetParams 0 junkcoinGenesisHash =
      Except.error CheckpointError.CheckpointMismatch := by
  decide

/-- C3: on both networks the stored genesis hash equals the block hash
recomputed from the stored genesis block; in the source the hash is defined
by exactly this computation at package initialization. -/
theorem c3_genesis_hash_roundtrip :
    JunkcoinMainNetParams.GenesisHash = blockHash JunkcoinMainNetParams.GenesisBlock ∧
    JunkcoinTestNetParams.GenesisHash = blockHash JunkcoinTestNetParams.GenesisBlock :=
  ⟨rfl, rfl⟩

/-- C4: the checkpoint sequences of both networks are strictly increasing by
height, hence contain no duplicate heights. -/
theorem c4_checkpoints_strictly_increasing :
    List.Pairwise (fun a b => a.Height < b.Height) JunkcoinMainNetParams.Checkpoints ∧
    List.Pairwise (fun a b => a.Height < b.Height) JunkcoinTestNetParams.Checkpoints ∧
    (JunkcoinMainNetParams.Checkpoints.map Checkpoint.Height).Nodup ∧
    (JunkcoinTestNetParams.Checkpoints.map Checkpoint.Height).Nodup := by
  decide

/-- C5: registering the main (magic 0x6a756e6b) and test (magic 0x6a756e6c)
parameter sets succeeds, magics and names are pairwise distinct, lookup by
magic returns the matching set, and any further registration reusing the
mainnet magic or an already registered name fails with `DuplicateNetwork`
(the failing call returns no new registry state). -/
theorem c5_registry_unique_and_duplicate_rejected :
    initRegistration = Except.ok registeredNets ∧
    List.Pairwise (fun a b => a.Net ≠ b.Net ∧ a.Name ≠ b.Name) registeredNets ∧
    lookupByMagic registeredNets 0x6a756e6b = some JunkcoinMainNetParams ∧
    lookupByMagic registeredNets 0x6a756e6c = some JunkcoinTestNetParams ∧
    ∀ p : Params,
      (p.Net = 0x6a756e6b ∨ p.Name = "junkcoin-mainnet" ∨ p.Name = "junkcoin-testnet") →
      registerNet registeredNets p = Except.error RegistryError.DuplicateNetwork := by
  refine ⟨by decide, by decide, rfl, rfl, fun p h => ?_⟩
  have hc : registeredNets.any (fun q => q.Net = p.Net ∨ q.Name = p.Name) = true := by
    simp only [registeredNets, List.any_cons, List.any_nil, Bool.or_eq_true,
      Bool.or_false, decide_eq_true_eq]
    rcases h with h | h | h
    · exact Or.inl (Or.inl h.symm)
    · exact Or.inl (Or.inr h.symm)
    · exact Or.inr (Or.inr h.symm)
  simp only [registerNet, hc, if_true]

/-- C5 witness: re-registering the mainnet parameter set itself, which reuses
magic 0x6a756e6b, is rejected with `DuplicateNetwork`. -/
theorem c5_registry_unique_and_duplicate_rejected_witness :
    registerNet registeredNets JunkcoinMainNetParams =
      Except.error RegistryError.DuplicateNetwork :=
  c5_registry_unique_and_duplicate_rejected.2.2.2.2 JunkcoinMainNetParams (Or.inl rfl)

/-- C6: under the mainnet parameters (24h timespan, adjustment factor 4) an
observed timespan of one hour is clamped to six hours, a quarter of the
target timespan, and the retargeted difficulty is computed from the clamped
six hours rather than the raw one hour. -/
theorem c6_retarget_clamps_one_hour_to_six :
    clampTimespan JunkcoinMainNetParams (timeHour * 1) =
      JunkcoinMainNetParams.TargetTimespan / 4 ∧
    JunkcoinMainNetParams.TargetTimespan / 4 = timeHour * 6 ∧
    ∀ old : Int, retargetNewTarget JunkcoinMainNetParams old (timeHour * 1) =
      min JunkcoinMainNetParams.PowLimit
        (old * (timeHour * 6) / JunkcoinMainNetParams.TargetTimespan) := by
  have hclamp : clampTimespan JunkcoinMainNetParams (timeHour * 1) = timeHour * 6 := by
    decide
  exact ⟨by decide, by decide, fun old => by
    simp only [retargetNewTarget, hclamp]⟩

/-- C7: on both networks the rule change activation threshold is at most the
miner confirmation window, with the stated concrete values. -/
theorem c7_threshold_le_window :
    JunkcoinMainNetParams.RuleChangeActivationThreshold = 9576 ∧
    JunkcoinMainNetParams.MinerConfirmationWindow = 10080 ∧
    JunkcoinMainNetParams.RuleChangeActivationThreshold ≤
      JunkcoinMainNetParams.MinerConfirmationWindow ∧
    JunkcoinTestNetParams.RuleChangeActivationThreshold = 1512 ∧
    JunkcoinTestNetParams.MinerConfirmationWindow = 2016 ∧
    JunkcoinTestNetParams.RuleChangeActivationThreshold ≤
      JunkcoinTestNetParams.MinerConfirmationWindow := by
  decide

/-- C8: on both networks the target timespan is an exact integer multiple of
the per-block target time, giving 1440 blocks per retarget window on the
main network and 240 on the test network. -/
theorem c8_blocks_per_retarget_exact :
    JunkcoinMainNetParams.TargetTimespan % JunkcoinMainNetParams.TargetTimePerBlock = 0 ∧
    blocksPerRetarget JunkcoinMainNetParams = 1440 ∧
    JunkcoinTestNetParams.TargetTimespan % JunkcoinTestNetParams.TargetTimePerBlock = 0 ∧
    blocksPerRetarget JunkcoinTestNetParams = 240 := by
  decide

/-- C9: both genesis blocks carry exactly the one shared coinbase
transaction, both headers commit the same merkle root
`4a5e1e4baab89f3a32518a88c31bc87f618f76673e2cc77ab2127b7afdeda33b`, and the
two headers agree on every field except timestamp and nonce, which
differ. -/
theorem c9_genesis_blocks_share_coinbase_and_merkle :
    junkcoinGenesisBlock.Transactions = [genesisCoinbaseTx] ∧
    junkcoinTestNetGenesisBlock.Transactions = [genesisCoinbaseTx] ∧
    junkcoinGenesisBlock.Header.MerkleRoot =
      mustParseHash "4a5e1e4baab89f3a32518a88c31bc87f618f76673e2cc77ab2127b7afdeda33b" ∧
    junkcoinTestNetGenesisBlock.Header.MerkleRoot =
      junkcoinGenesisBlock.Header.MerkleRoot ∧
    junkcoinGenesisBlock.Header.Version = junkcoinTestNetGenesisBlock.Header.Version ∧
    junkcoinGenesisBlock.Header.PrevBlock = junkcoinTestNetGenesisBlock.Header.PrevBlock ∧
    junkcoinGenesisBlock.Header.Bits = junkcoinTestNetGenesisBlock.Header.Bits ∧
    junkcoinGenesisBlock.Header.Timestamp ≠ junkcoinTestNetGenesisBlock.Header.Timestamp ∧
    junkcoinGenesisBlock.Header.Nonce ≠ junkcoinTestNetGenesisBlock.Header.Nonce := by
  refine ⟨rfl, rfl, rfl, rfl, rfl, rfl, rfl, by decide, by decide⟩

/-- C10: both networks set the proof of work limit to exactly `2^224 - 1`
and the compact encoding to `0x1e0ffff0`, so limits and compact encodings
coincide across the two networks. -/
theorem c10_pow_limits_equal :
    JunkcoinMainNetParams.PowLimit = 2 ^ 224 - 1 ∧
    JunkcoinTestNetParams.PowLimit = 2 ^ 224 - 1 ∧
    JunkcoinMainNetParams.PowLimit = JunkcoinTestNetParams.PowLimit ∧
    JunkcoinMainNetParams.PowLimitBits = 0x1e0ffff0 ∧
    JunkcoinTestNetParams.PowLimitBits = JunkcoinMainNetParams.PowLimitBits := by
  decide

end Junkd
